import Mathlib

/-!
Shallow embedding of the task-calendar client (the static JavaScript app):
session context, the editor panel's widget state, the role gating performed
by `openEditor`, the save flow of `savePage`, the drag/resize update flow of
`updateEventDate`, and the dashboard status update of `updateTaskStatus`.
Each definition is translated from the JavaScript source; DOM widget state
(field values, `disabled` flags, button `display` styles) is carried
explicitly in `EditorState`, and network outcomes are passed in as a
`FetchResult` parameter.
-/

namespace TaskCalendar

/-- Session Context: the viewer identity injected by the server shell as the
globals `window.currentUserId`, `window.currentUserRole`,
`window.currentTeamId`. `role = none` models an unset / undefined role
global (the strict comparison `undefined === 'member'` is false). -/
structure Session where
  userId : Int
  role : Option String
  teamId : Option Int
deriving DecidableEq

/-- A FullCalendar event object as produced by `eventDataTransform`: id,
title, `start`, a possibly-null `end`, and the `extendedProps` bag
(content, category, status, author_id, assignee_id, priority). `Option`
models JavaScript null/undefined. -/
structure CalEvent where
  id : Nat
  title : String
  start : String
  endT : Option String
  content : Option String
  category : Option String
  status : Option String
  authorId : Option Int
  assigneeId : Option Int
  priority : Option String
deriving DecidableEq

/-- JavaScript `x || d` on a string-or-missing value: null/undefined and the
empty string are falsy and select the default. -/
def jsOr (x : Option String) (d : String) : String :=
  match x with
  | none => d
  | some s => if s = "" then d else s

/-- JavaScript `assignee_id || ""` as used when writing the numeric-or-null
assignee id into the select widget: null and 0 are falsy and yield the empty
string, which the model renders as `none`. -/
def jsOrId (x : Option Int) : Option Int :=
  match x with
  | none => none
  | some n => if n = 0 then none else some n

/-- The editor panel's DOM state: the overlay, the `currentEventId` global,
one (value, disabled) pair per field widget (`pageTitle`, `pageCategory`,
`pagePriority`, `pageStatus`, `pageAssignee`), the Quill content and its
enabled flag, the `display` visibility of the save and delete buttons, and
the `window.tempDates` holder for pending new-event dates. The field
widgets are always displayed by the page markup — the code never hides a
field, it only toggles `disabled` — so no per-field visibility flag is
needed: a field is "visible but read-only" exactly when its disabled flag
is true. -/
structure EditorState where
  overlayOpen : Bool
  currentEventId : Option Nat
  titleValue : String
  titleDisabled : Bool
  categoryValue : String
  categoryDisabled : Bool
  priorityValue : String
  priorityDisabled : Bool
  statusValue : String
  statusDisabled : Bool
  assigneeValue : Option Int
  assigneeDisabled : Bool
  quillContent : String
  quillEnabled : Bool
  saveBtnVisible : Bool
  deleteBtnVisible : Bool
  tempDates : Option (String × String)
deriving DecidableEq

/-- The argument of `openEditor(data, isExisting)`: either a date-range
selection `{start, end}` (new event, `isExisting = false`) or a clicked
calendar event (`isExisting = true`). -/
inductive OpenData
  | newRange (startStr endStr : String)
  | existing (ev : CalEvent)
deriving DecidableEq

/-- `openEditor` from the JavaScript source: opens the overlay, resets the
save button to visible and the delete button to hidden, seeds the field
widgets, and applies the role gating (`isMember`, `isAssignedToMe`). -/
def openEditor (sess : Session) (st : EditorState) (d : OpenData) : EditorState :=
  let st0 : EditorState :=
    { st with overlayOpen := true, saveBtnVisible := true, deleteBtnVisible := false }
  match d with
  | OpenData.existing ev =>
    let st1 : EditorState :=
      { st0 with
        currentEventId := some ev.id
        titleValue := ev.title
        categoryValue := jsOr ev.category "feature"
        priorityValue := jsOr ev.priority "medium"
        assigneeValue := jsOrId ev.assigneeId
        statusValue := jsOr ev.status "todo"
        quillContent := jsOr ev.content "" }
    -- isMember := window.currentUserRole === 'member'
    -- isAssignedToMe := data.extendedProps.assignee_id === window.currentUserId
    if sess.role = some "member" then
      let st2 : EditorState :=
        { st1 with
          quillEnabled := false
          titleDisabled := true
          categoryDisabled := true
          priorityDisabled := true
          assigneeDisabled := true }
      let st3 : EditorState :=
        if ev.assigneeId = some sess.userId then
          { st2 with statusDisabled := false, saveBtnVisible := true }
        else
          { st2 with statusDisabled := true, saveBtnVisible := false }
      { st3 with deleteBtnVisible := false }
    else
      { st1 with
        quillEnabled := true
        titleDisabled := false
        categoryDisabled := false
        priorityDisabled := false
        assigneeDisabled := false
        statusDisabled := false
        saveBtnVisible := true
        deleteBtnVisible := true }
  | OpenData.newRange startStr endStr =>
    let st1 : EditorState :=
      { st0 with
        currentEventId := none
        titleValue := ""
        categoryValue := "feature"
        priorityValue := "medium"
        statusValue := "todo"
        quillContent := ""
        tempDates := some (startStr, endStr) }
    -- isMember := window.currentUserRole === 'member'
    let st2 : EditorState :=
      { st1 with
        quillEnabled := true
        titleDisabled := false
        categoryDisabled := false
        priorityDisabled := false
        statusDisabled := false }
    if sess.role = some "member" then
      { st2 with assigneeValue := some sess.userId, assigneeDisabled := true }
    else
      { st2 with assigneeValue := none, assigneeDisabled := false }

/-- A user interaction with one field widget between opening the panel and
pressing save. A browser ignores input to a `disabled` widget (and Quill
ignores input while disabled), so each edit applies only when the target
field is enabled. -/
inductive UserEdit
  | setTitle (s : String)
  | setCategory (s : String)
  | setPriority (s : String)
  | setStatus (s : String)
  | setAssignee (a : Option Int)
  | setContent (s : String)
deriving DecidableEq

/-- Apply one user edit to the panel, respecting the disabled flags. -/
def applyEdit (st : EditorState) (e : UserEdit) : EditorState :=
  match e with
  | UserEdit.setTitle s => if st.titleDisabled then st else { st with titleValue := s }
  | UserEdit.setCategory s => if st.categoryDisabled then st else { st with categoryValue := s }
  | UserEdit.setPriority s => if st.priorityDisabled then st else { st with priorityValue := s }
  | UserEdit.setStatus s => if st.statusDisabled then st else { st with statusValue := s }
  | UserEdit.setAssignee a => if st.assigneeDisabled then st else { st with assigneeValue := a }
  | UserEdit.setContent s => if st.quillEnabled then { st with quillContent := s } else st

/-- Apply a sequence of user edits in order. -/
def applyEdits (st : EditorState) (edits : List UserEdit) : EditorState :=
  edits.foldl applyEdit st

/-- The JSON body sent to `POST /api/pages` and `PUT /api/pages/{id}`. -/
structure PagePayload where
  title : String
  content : String
  category : String
  priority : String
  assigneeId : Option Int
  status : String
  startTime : String
  endTime : Option String
deriving DecidableEq

/-- One issued network request: method, URL and JSON body. -/
structure Request where
  method : String
  url : String
  payload : PagePayload
deriving DecidableEq

/-- Outcome of an awaited `fetch`: a response with `ok = true`, a response
with a non-success status (carrying the server `detail` string for the
bodies that read it), or a thrown network/transport error. -/
inductive FetchResult
  | ok
  | errorStatus (detail : String)
  | networkError (msg : String)
deriving DecidableEq

/-- Observable outcome of one `savePage` invocation: the panel state after
the handler (including the scheduled 500 ms close when it fires), the
requests issued, the alerts shown, whether the calendar was asked to
refetch, whether a close was scheduled, and whether the handler died on an
uncaught JavaScript error before reaching `fetch`. -/
structure SaveResult where
  panel : EditorState
  requests : List Request
  alerts : List String
  refetched : Bool
  closeScheduled : Bool
  jsError : Bool
deriving DecidableEq

/-- The field part of the save payload, read from the panel widgets exactly
as `savePage` does: `{ title, content, category, priority, assignee_id,
status }`, with the branch-dependent `start_time` / `end_time` attached. -/
def panelPayload (st : EditorState) (startTime : String) (endTime : Option String) :
    PagePayload :=
  { title := st.titleValue
    content := st.quillContent
    category := st.categoryValue
    priority := st.priorityValue
    assigneeId := st.assigneeValue
    status := st.statusValue
    startTime := startTime
    endTime := endTime }

/-- The tail of `savePage` after the payload is built: issue the request and
dispatch on the response (`ok` → refetch, transient saved indicator,
scheduled close; non-success → alert the server `detail`, stay open; thrown
error → alert "Erreur réseau", stay open). -/
def sendSave (st : EditorState) (method url : String) (p : PagePayload)
    (resp : FetchResult) : SaveResult :=
  match resp with
  | FetchResult.ok =>
    { panel := { st with overlayOpen := false }
      requests := [⟨method, url, p⟩]
      alerts := []
      refetched := true
      closeScheduled := true
      jsError := false }
  | FetchResult.errorStatus detail =>
    { panel := st
      requests := [⟨method, url, p⟩]
      alerts := ["Error: " ++ detail]
      refetched := false
      closeScheduled := false
      jsError := false }
  | FetchResult.networkError msg =>
    { panel := st
      requests := [⟨method, url, p⟩]
      alerts := ["Erreur réseau: " ++ msg]
      refetched := false
      closeScheduled := false
      jsError := false }

/-- `savePage` from the JavaScript source. Reads the panel widgets, aborts
with a "Title Required" alert when the title is empty (before any network
activity), otherwise builds the payload and issues `PUT /api/pages/{id}`
(start/end taken from the live calendar event looked up by
`calendar.getEventById(currentEventId)`) or `POST /api/pages` (start/end
taken from `window.tempDates`). A missing calendar event or missing
`tempDates` would throw a TypeError in JavaScript, modelled by `jsError`. -/
def savePage (st : EditorState) (cal : Nat → Option CalEvent) (resp : FetchResult) :
    SaveResult :=
  if st.titleValue = "" then
    { panel := st
      requests := []
      alerts := ["Title Required"]
      refetched := false
      closeScheduled := false
      jsError := false }
  else
    match st.currentEventId with
    | some id =>
      match cal id with
      | some ev =>
        sendSave st "PUT" ("/api/pages/" ++ toString id)
          (panelPayload st ev.start ev.endT) resp
      | none =>
        { panel := st
          requests := []
          alerts := []
          refetched := false
          closeScheduled := false
          jsError := true }
    | none =>
      match st.tempDates with
      | some dates =>
        sendSave st "POST" "/api/pages"
          (panelPayload st dates.1 (some dates.2)) resp
      | none =>
        { panel := st
          requests := []
          alerts := []
          refetched := false
          closeScheduled := false
          jsError := true }

/-- The payload `updateEventDate` builds from the dragged/resized calendar
event: all fields re-sent, with the fallbacks of the source (`content ||
""`, `category || 'personal'`, `status || 'draft'`, `priority ||
'medium'`). -/
def updateEventDatePayload (ev : CalEvent) : PagePayload :=
  { title := ev.title
    content := jsOr ev.content ""
    startTime := ev.start
    endTime := ev.endT
    category := jsOr ev.category "personal"
    status := jsOr ev.status "draft"
    priority := jsOr ev.priority "medium"
    assigneeId := ev.assigneeId }

/-- Observable outcome of one `updateEventDate` invocation: the issued
request, whether `event.revert()` was called, the alerts shown, and how
many errors were written to the console. -/
structure DragResult where
  request : Request
  reverted : Bool
  alerts : List String
  consoleErrorCount : Nat
deriving DecidableEq

/-- `updateEventDate` from the JavaScript source: send the full payload via
`PUT /api/pages/{event.id}`; on a non-ok response alert "Update failed."
and revert the event; a thrown fetch error is caught and only logged with
`console.error` — the catch block neither alerts nor reverts. -/
def updateEventDate (ev : CalEvent) (resp : FetchResult) : DragResult :=
  let req : Request := ⟨"PUT", "/api/pages/" ++ toString ev.id, updateEventDatePayload ev⟩
  match resp with
  | FetchResult.ok => ⟨req, false, [], 0⟩
  | FetchResult.errorStatus _ => ⟨req, true, ["Update failed."], 0⟩
  | FetchResult.networkError _ => ⟨req, false, [], 1⟩

/-- A Page record as returned by `GET /api/pages/{id}`. -/
structure PageRecord where
  title : String
  content : String
  startTime : String
  endTime : Option String
  category : String
  priority : String
  assigneeId : Option Int
  status : String
deriving DecidableEq

/-- The payload `updateTaskStatus` sends: every field copied from the
just-fetched record `currentData`, with `status` replaced by the requested
new status. -/
def updateTaskStatusPayload (currentData : PageRecord) (newStatus : String) :
    PagePayload :=
  { title := currentData.title
    content := currentData.content
    startTime := currentData.startTime
    endTime := currentData.endTime
    category := currentData.category
    priority := currentData.priority
    assigneeId := currentData.assigneeId
    status := newStatus }

/-- All six field widgets read-only: the five selects/inputs disabled and
Quill disabled. -/
def allFieldsReadOnly (o : EditorState) : Prop :=
  o.titleDisabled = true ∧ o.categoryDisabled = true ∧ o.priorityDisabled = true ∧
  o.assigneeDisabled = true ∧ o.statusDisabled = true ∧ o.quillEnabled = false

/-- All six field widgets editable: the five selects/inputs enabled and
Quill enabled. -/
def allFieldsEditable (o : EditorState) : Prop :=
  o.titleDisabled = false ∧ o.categoryDisabled = false ∧ o.priorityDisabled = false ∧
  o.assigneeDisabled = false ∧ o.statusDisabled = false ∧ o.quillEnabled = true

/-- The pristine panel DOM before any `openEditor` call: overlay closed,
every widget enabled with its markup default value, save visible, delete
hidden. -/
def emptyState : EditorState :=
  { overlayOpen := false
    currentEventId := none
    titleValue := ""
    titleDisabled := false
    categoryValue := "feature"
    categoryDisabled := false
    priorityValue := "medium"
    priorityDisabled := false
    statusValue := "todo"
    statusDisabled := false
    assigneeValue := none
    assigneeDisabled := false
    quillContent := ""
    quillEnabled := true
    saveBtnVisible := true
    deleteBtnVisible := false
    tempDates := none }

/-- `true` exactly when the panel was opened on an existing event
(`isExisting = true` in the source). -/
def isExistingOpen (d : OpenData) : Bool :=
  match d with
  | OpenData.existing _ => true
  | OpenData.newRange _ _ => false

/-- Every issued request carries `assignee_id = uid` in its body. -/
def allRequestsAssignedTo (rs : List Request) (uid : Int) : Bool :=
  rs.all (fun r => r.payload.assigneeId == some uid)

/-- A concrete existing event assigned to user 5. -/
def eventAssignedTo5 : CalEvent :=
  { id := 3
    title := "Deploy fix"
    start := "2024-05-01T09:00:00"
    endT := some "2024-05-01T10:00:00"
    content := some "<p>notes</p>"
    category := some "devops"
    status := some "todo"
    authorId := some 2
    assigneeId := some 5
    priority := some "high" }

/-- A concrete existing event assigned to user 7. -/
def eventAssignedTo7 : CalEvent :=
  { id := 4
    title := "Write report"
    start := "2024-05-02T09:00:00"
    endT := none
    content := some "<p>report</p>"
    category := some "feature"
    status := some "in_progress"
    authorId := some 2
    assigneeId := some 7
    priority := some "medium" }

-- Helper lemmas ------------------------------------------------------------

/-- One user edit can change neither the value nor the disabled flag of a
disabled assignee widget. -/
theorem applyEdit_assignee_locked (st : EditorState) (e : UserEdit)
    (h : st.assigneeDisabled = true) :
    (applyEdit st e).assigneeDisabled = true ∧
    (applyEdit st e).assigneeValue = st.assigneeValue := by
  cases e <;> simp [applyEdit, h] <;> split <;> simp [h]

/-- No sequence of user edits can change the value or the disabled flag of a
disabled assignee widget. -/
theorem applyEdits_assignee_locked (edits : List UserEdit) (st : EditorState)
    (h : st.assigneeDisabled = true) :
    (applyEdits st edits).assigneeDisabled = true ∧
    (applyEdits st edits).assigneeValue = st.assigneeValue := by
  induction edits generalizing st with
  | nil => exact ⟨h, rfl⟩
  | cons e es ih =>
    have h1 := applyEdit_assignee_locked st e h
    have h2 := ih (applyEdit st e) h1.1
    exact ⟨h2.1, h2.2.trans h1.2⟩

/-- Every request `savePage` issues carries the assignee value currently in
the panel widget. -/
theorem savePage_requests_assignee (st : EditorState) (cal : Nat → Option CalEvent)
    (resp : FetchResult) :
    ∀ r ∈ (savePage st cal resp).requests, r.payload.assigneeId = st.assigneeValue := by
  intro r hr
  unfold savePage at hr
  by_cases ht : st.titleValue = ""
  · simp [ht] at hr
  · rcases hcid : st.currentEventId with - | id <;> simp [ht, hcid] at hr
    · rcases htd : st.tempDates with - | dates <;> simp [htd] at hr
      cases resp <;> simp [sendSave] at hr <;>
        simp [hr, panelPayload]
    · rcases hcal : cal id with - | ev <;> simp [hcal] at hr
      cases resp <;> simp [sendSave] at hr <;>
        simp [hr, panelPayload]

-- Claim theorems -----------------------------------------------------------

/-- Claim C1 (code evaluated at the failing input): with the role global
unset (`none`), opening an existing event takes the "Manager / Admin" branch
of `openEditor` and grants FULL access — every field editable, save visible,
delete visible — instead of the fail-closed read-only policy the
specification requires. -/
theorem openEditor_unset_role_grants_full_access :
    allFieldsEditable (openEditor ⟨7, none, none⟩ emptyState
      (OpenData.existing eventAssignedTo5)) ∧
    (openEditor ⟨7, none, none⟩ emptyState
      (OpenData.existing eventAssignedTo5)).saveBtnVisible = true ∧
    (openEditor ⟨7, none, none⟩ emptyState
      (OpenData.existing eventAssignedTo5)).deleteBtnVisible = true := by
  refine ⟨?_, by decide, by decide⟩
  simp only [allFieldsEditable]
  decide

/-- Claim C7: when the server answers a drag/resize update with a
non-success status, `updateEventDate` calls `event.revert()` — the event is
put back at its original displayed time — and alerts "Update failed.". -/
theorem updateEventDate_rejected_reverts (ev : CalEvent) (detail : String) :
    (updateEventDate ev (FetchResult.errorStatus detail)).reverted = true ∧
    (updateEventDate ev (FetchResult.errorStatus detail)).alerts = ["Update failed."] := by
  simp [updateEventDate]

/-- Claim C8 (counterexample): at a concrete thrown fetch error during a
drag/resize update, `updateEventDate` shows NO alert and does NOT revert
the drag — refuting the claim that a generic alert is shown and the
operation is treated as not-applied. -/
theorem updateEventDate_network_error_no_alert_no_revert :
    (updateEventDate eventAssignedTo5
      (FetchResult.networkError "Failed to fetch")).alerts = [] ∧
    (updateEventDate eventAssignedTo5
      (FetchResult.networkError "Failed to fetch")).reverted = false := by
  decide

/-- Claim C8 (amended): a thrown fetch error during a drag/resize update is
caught and logged to the console once, but no user-visible alert is shown
and the drag is not reverted — the event stays at the attempted new time. -/
theorem updateEventDate_network_error_only_logs (ev : CalEvent) (msg : String) :
    (updateEventDate ev (FetchResult.networkError msg)).consoleErrorCount = 1 ∧
    (updateEventDate ev (FetchResult.networkError msg)).alerts = [] ∧
    (updateEventDate ev (FetchResult.networkError msg)).reverted = false := by
  simp [updateEventDate]

/-- A calendar lookup with no events (`calendar.getEventById` always null). -/
def noEvents : Nat → Option CalEvent := fun _ => none

/-- A calendar lookup whose only event is `eventAssignedTo5` under id 3. -/
def calWithEvent3 : Nat → Option CalEvent :=
  fun n => if n = 3 then some eventAssignedTo5 else none

/-- A panel opened on existing event 3, with a non-empty title in the title
widget. -/
def panelOnEvent3 : EditorState :=
  { emptyState with currentEventId := some 3, titleValue := "Deploy fix" }

/-- Claim C2: a member opening an existing event not assigned to them gets
every field read-only — including status — with save hidden and delete
hidden. (Fields are never hidden by the code, so read-only means disabled
while still displayed.) -/
theorem openEditor_member_unowned_locked (sess : Session) (st : EditorState)
    (ev : CalEvent) (hrole : sess.role = some "member")
    (hown : ev.assigneeId ≠ some sess.userId) :
    allFieldsReadOnly (openEditor sess st (OpenData.existing ev)) ∧
    (openEditor sess st (OpenData.existing ev)).saveBtnVisible = false ∧
    (openEditor sess st (OpenData.existing ev)).deleteBtnVisible = false := by
  simp [openEditor, allFieldsReadOnly, hrole, hown]

/-- Witness for C2: member user 7 opening the event assigned to user 5. -/
theorem openEditor_member_unowned_locked_witness :
    ((⟨7, some "member", none⟩ : Session).role = some "member") ∧
    eventAssignedTo5.assigneeId ≠ some ((⟨7, some "member", none⟩ : Session).userId) ∧
    (allFieldsReadOnly (openEditor ⟨7, some "member", none⟩ emptyState
        (OpenData.existing eventAssignedTo5)) ∧
      (openEditor ⟨7, some "member", none⟩ emptyState
        (OpenData.existing eventAssignedTo5)).saveBtnVisible = false ∧
      (openEditor ⟨7, some "member", none⟩ emptyState
        (OpenData.existing eventAssignedTo5)).deleteBtnVisible = false) :=
  ⟨rfl, by decide,
    openEditor_member_unowned_locked ⟨7, some "member", none⟩ emptyState
      eventAssignedTo5 rfl (by decide)⟩

/-- Claim C3: a member opening an existing event assigned to them gets
exactly the status field editable; title, category, priority, assignee and
content stay displayed but read-only; delete is hidden; save is visible. -/
theorem openEditor_member_owned_status_only (sess : Session) (st : EditorState)
    (ev : CalEvent) (hrole : sess.role = some "member")
    (hown : ev.assigneeId = some sess.userId) :
    (openEditor sess st (OpenData.existing ev)).statusDisabled = false ∧
    (openEditor sess st (OpenData.existing ev)).titleDisabled = true ∧
    (openEditor sess st (OpenData.existing ev)).categoryDisabled = true ∧
    (openEditor sess st (OpenData.existing ev)).priorityDisabled = true ∧
    (openEditor sess st (OpenData.existing ev)).assigneeDisabled = true ∧
    (openEditor sess st (OpenData.existing ev)).quillEnabled = false ∧
    (openEditor sess st (OpenData.existing ev)).deleteBtnVisible = false ∧
    (openEditor sess st (OpenData.existing ev)).saveBtnVisible = true := by
  simp [openEditor, hrole, hown]

/-- Witness for C3: member user 7 opening the event assigned to user 7. -/
theorem openEditor_member_owned_status_only_witness :
    ((⟨7, some "member", none⟩ : Session).role = some "member") ∧
    eventAssignedTo7.assigneeId = some ((⟨7, some "member", none⟩ : Session).userId) ∧
    ((openEditor ⟨7, some "member", none⟩ emptyState
        (OpenData.existing eventAssignedTo7)).statusDisabled = false ∧
      (openEditor ⟨7, some "member", none⟩ emptyState
        (OpenData.existing eventAssignedTo7)).titleDisabled = true ∧
      (openEditor ⟨7, some "member", none⟩ emptyState
        (OpenData.existing eventAssignedTo7)).categoryDisabled = true ∧
      (openEditor ⟨7, some "member", none⟩ emptyState
        (OpenData.existing eventAssignedTo7)).priorityDisabled = true ∧
      (openEditor ⟨7, some "member", none⟩ emptyState
        (OpenData.existing eventAssignedTo7)).assigneeDisabled = true ∧
      (openEditor ⟨7, some "member", none⟩ emptyState
        (OpenData.existing eventAssignedTo7)).quillEnabled = false ∧
      (openEditor ⟨7, some "member", none⟩ emptyState
        (OpenData.existing eventAssignedTo7)).deleteBtnVisible = false ∧
      (openEditor ⟨7, some "member", none⟩ emptyState
        (OpenData.existing eventAssignedTo7)).saveBtnVisible = true) :=
  ⟨rfl, by decide,
    openEditor_member_owned_status_only ⟨7, some "member", none⟩ emptyState
      eventAssignedTo7 rfl (by decide)⟩

/-- Claim C4: a member opening the new-event editor gets every field
editable except the assignee, which is preset to the viewer's own user id
and disabled; status starts at "todo"; and after any sequence of user edits
through the widgets, every request a subsequent save issues carries
`assignee_id` equal to the session user's id. -/
theorem openEditor_member_new_assignee_locked (sess : Session) (st : EditorState)
    (startStr endStr : String) (edits : List UserEdit)
    (cal : Nat → Option CalEvent) (resp : FetchResult)
    (hrole : sess.role = some "member") :
    (openEditor sess st (OpenData.newRange startStr endStr)).statusValue = "todo" ∧
    (openEditor sess st (OpenData.newRange startStr endStr)).assigneeValue
      = some sess.userId ∧
    (openEditor sess st (OpenData.newRange startStr endStr)).assigneeDisabled = true ∧
    (openEditor sess st (OpenData.newRange startStr endStr)).titleDisabled = false ∧
    (openEditor sess st (OpenData.newRange startStr endStr)).categoryDisabled = false ∧
    (openEditor sess st (OpenData.newRange startStr endStr)).priorityDisabled = false ∧
    (openEditor sess st (OpenData.newRange startStr endStr)).statusDisabled = false ∧
    (openEditor sess st (OpenData.newRange startStr endStr)).quillEnabled = true ∧
    allRequestsAssignedTo
      (savePage (applyEdits (openEditor sess st (OpenData.newRange startStr endStr)) edits)
        cal resp).requests sess.userId = true := by
  have hA : (openEditor sess st (OpenData.newRange startStr endStr)).assigneeDisabled
      = true := by
    simp [openEditor, hrole]
  have hV : (openEditor sess st (OpenData.newRange startStr endStr)).assigneeValue
      = some sess.userId := by
    simp [openEditor, hrole]
  refine ⟨by simp [openEditor, hrole], hV, hA, by simp [openEditor, hrole],
    by simp [openEditor, hrole], by simp [openEditor, hrole],
    by simp [openEditor, hrole], by simp [openEditor, hrole], ?_⟩
  have hlock := applyEdits_assignee_locked edits _ hA
  simp only [allRequestsAssignedTo, List.all_eq_true]
  intro r hr
  have h1 := savePage_requests_assignee _ cal resp r hr
  simp [h1, hlock.2, hV]

/-- Witness for C4: member user 7 opens a new-event dialog, retitles the
task and even attempts to re-point the assignee widget at user 9; the save
request still carries `assignee_id = 7`. -/
theorem openEditor_member_new_assignee_locked_witness :
    ((⟨7, some "member", none⟩ : Session).role = some "member") ∧
    ((openEditor ⟨7, some "member", none⟩ emptyState
        (OpenData.newRange "2024-06-01" "2024-06-02")).statusValue = "todo" ∧
      (openEditor ⟨7, some "member", none⟩ emptyState
        (OpenData.newRange "2024-06-01" "2024-06-02")).assigneeValue = some (7 : Int) ∧
      (openEditor ⟨7, some "member", none⟩ emptyState
        (OpenData.newRange "2024-06-01" "2024-06-02")).assigneeDisabled = true ∧
      (openEditor ⟨7, some "member", none⟩ emptyState
        (OpenData.newRange "2024-06-01" "2024-06-02")).titleDisabled = false ∧
      (openEditor ⟨7, some "member", none⟩ emptyState
        (OpenData.newRange "2024-06-01" "2024-06-02")).categoryDisabled = false ∧
      (openEditor ⟨7, some "member", none⟩ emptyState
        (OpenData.newRange "2024-06-01" "2024-06-02")).priorityDisabled = false ∧
      (openEditor ⟨7, some "member", none⟩ emptyState
        (OpenData.newRange "2024-06-01" "2024-06-02")).statusDisabled = false ∧
      (openEditor ⟨7, some "member", none⟩ emptyState
        (OpenData.newRange "2024-06-01" "2024-06-02")).quillEnabled = true ∧
      allRequestsAssignedTo
        (savePage (applyEdits (openEditor ⟨7, some "member", none⟩ emptyState
            (OpenData.newRange "2024-06-01" "2024-06-02"))
            [UserEdit.setTitle "My task", UserEdit.setAssignee (some 9)])
          noEvents FetchResult.ok).requests (7 : Int) = true) :=
  ⟨rfl,
    openEditor_member_new_assignee_locked ⟨7, some "member", none⟩ emptyState
      "2024-06-01" "2024-06-02"
      [UserEdit.setTitle "My task", UserEdit.setAssignee (some 9)]
      noEvents FetchResult.ok rfl⟩

/-- Claim C5: an admin or manager opening the editor — in new or existing
mode — gets every field editable (and displayed) with save visible, and for
existing events the delete action visible. -/
theorem openEditor_admin_manager_full_access (sess : Session) (st : EditorState)
    (d : OpenData)
    (hrole : sess.role = some "admin" ∨ sess.role = some "manager") :
    allFieldsEditable (openEditor sess st d) ∧
    (openEditor sess st d).saveBtnVisible = true ∧
    (isExistingOpen d = true → (openEditor sess st d).deleteBtnVisible = true) := by
  rcases hrole with h | h <;> cases d <;>
    simp [openEditor, allFieldsEditable, isExistingOpen, h]

/-- Witness for C5: an admin opening the existing event assigned to user 5. -/
theorem openEditor_admin_manager_full_access_witness :
    (((⟨1, some "admin", none⟩ : Session).role = some "admin") ∨
      ((⟨1, some "admin", none⟩ : Session).role = some "manager")) ∧
    (allFieldsEditable (openEditor ⟨1, some "admin", none⟩ emptyState
        (OpenData.existing eventAssignedTo5)) ∧
      (openEditor ⟨1, some "admin", none⟩ emptyState
        (OpenData.existing eventAssignedTo5)).saveBtnVisible = true ∧
      (isExistingOpen (OpenData.existing eventAssignedTo5) = true →
        (openEditor ⟨1, some "admin", none⟩ emptyState
          (OpenData.existing eventAssignedTo5)).deleteBtnVisible = true)) :=
  ⟨Or.inl rfl,
    openEditor_admin_manager_full_access ⟨1, some "admin", none⟩ emptyState
      (OpenData.existing eventAssignedTo5) (Or.inl rfl)⟩

/-- Claim C6: a save attempt with an empty title issues no network request
(no create, update, refetch or close) and leaves the panel state unchanged;
only the "Title Required" alert is shown. -/
theorem savePage_empty_title_no_request (st : EditorState)
    (cal : Nat → Option CalEvent) (resp : FetchResult)
    (h : st.titleValue = "") :
    savePage st cal resp =
      { panel := st
        requests := []
        alerts := ["Title Required"]
        refetched := false
        closeScheduled := false
        jsError := false } := by
  simp [savePage, h]

/-- Witness for C6: saving the pristine panel, whose title widget is empty. -/
theorem savePage_empty_title_no_request_witness :
    emptyState.titleValue = "" ∧
    savePage emptyState noEvents FetchResult.ok =
      { panel := emptyState
        requests := []
        alerts := ["Title Required"]
        refetched := false
        closeScheduled := false
        jsError := false } :=
  ⟨rfl, savePage_empty_title_no_request emptyState noEvents FetchResult.ok rfl⟩

/-- Claim C9: saving an existing event sends exactly one PUT whose
start_time/end_time come from the live calendar widget's current event
object for that id — not from any snapshot taken when the panel opened —
while every other payload field comes from the panel widgets. -/
theorem savePage_existing_uses_live_dates (st : EditorState)
    (cal : Nat → Option CalEvent) (resp : FetchResult) (id : Nat) (ev : CalEvent)
    (hid : st.currentEventId = some id)
    (hcal : cal id = some ev)
    (htitle : st.titleValue ≠ "") :
    (savePage st cal resp).requests =
      [⟨"PUT", "/api/pages/" ++ toString id,
        { title := st.titleValue
          content := st.quillContent
          category := st.categoryValue
          priority := st.priorityValue
          assigneeId := st.assigneeValue
          status := st.statusValue
          startTime := ev.start
          endTime := ev.endT }⟩] := by
  cases resp <;> simp [savePage, hid, hcal, htitle, sendSave, panelPayload]

/-- Witness for C9: the panel is open on event 3 and the live calendar
event carries the (possibly dragged) start/end that end up in the PUT. -/
theorem savePage_existing_uses_live_dates_witness :
    panelOnEvent3.currentEventId = some 3 ∧
    calWithEvent3 3 = some eventAssignedTo5 ∧
    panelOnEvent3.titleValue ≠ "" ∧
    (savePage panelOnEvent3 calWithEvent3 FetchResult.ok).requests =
      [⟨"PUT", "/api/pages/" ++ toString 3,
        { title := panelOnEvent3.titleValue
          content := panelOnEvent3.quillContent
          category := panelOnEvent3.categoryValue
          priority := panelOnEvent3.priorityValue
          assigneeId := panelOnEvent3.assigneeValue
          status := panelOnEvent3.statusValue
          startTime := eventAssignedTo5.start
          endTime := eventAssignedTo5.endT }⟩] :=
  ⟨rfl, by decide, by decide,
    savePage_existing_uses_live_dates panelOnEvent3 calWithEvent3 FetchResult.ok 3
      eventAssignedTo5 rfl (by decide) (by decide)⟩

/-- Claim C10: the payload `updateTaskStatus` sends equals the just-fetched
record in every field — title, content, start_time, end_time, category,
priority, assignee_id — except `status`, which equals the requested new
status. -/
theorem updateTaskStatusPayload_status_only (currentData : PageRecord)
    (newStatus : String) :
    (updateTaskStatusPayload currentData newStatus).title = currentData.title ∧
    (updateTaskStatusPayload currentData newStatus).content = currentData.content ∧
    (updateTaskStatusPayload currentData newStatus).startTime = currentData.startTime ∧
    (updateTaskStatusPayload currentData newStatus).endTime = currentData.endTime ∧
    (updateTaskStatusPayload currentData newStatus).category = currentData.category ∧
    (updateTaskStatusPayload currentData newStatus).priority = currentData.priority ∧
    (updateTaskStatusPayload currentData newStatus).assigneeId = currentData.assigneeId ∧
    (updateTaskStatusPayload currentData newStatus).status = newStatus := by
  simp [updateTaskStatusPayload]

end TaskCalendar
